import Mathlib

/-!
Shallow embedding of the guh `DeviceManager` (`src/libguh/devicemanager.cpp`).

Qt containers are modelled as lists, `QVariant` as a small tagged value
universe, and plugins as records whose capability verdicts
(`setupDevice`, `confirmPairing`) are plain data, since concrete plugins are
external collaborators.  Every operation returns, next to its error code and
successor state, the ordered list of observable outputs (signal emissions and
calls into plugins) as a list of `Emitted` values.
-/

/-- Identifiers are UUIDs compared by value; modelled as naturals, with `0`
playing the role of the null `QUuid`. -/
abbrev Uuid := Nat

abbrev PluginId := Uuid
abbrev DeviceId := Uuid
abbrev DeviceClassId := Uuid
abbrev DeviceDescriptorId := Uuid
abbrev StateTypeId := Uuid
abbrev EventTypeId := Uuid
abbrev PairingTransactionId := Uuid

/-- Primitive type tags carried by a `ParamType` (`QVariant::Type`). -/
inductive QVariantType where
  | intType
  | stringType
  | boolType
deriving DecidableEq, Repr

/-- Model of `QVariant`: the tagged values the embedded code manipulates.
`null` models both the null and the default-constructed (invalid) variant. -/
inductive QVariant where
  | null
  | intV (n : Int)
  | stringV (s : String)
  | boolV (b : Bool)
deriving DecidableEq, Repr

/-- `QVariant::isNull`. -/
def QVariant.isNull : QVariant → Bool
  | .null => true
  | _ => false

/-- `QVariant::isValid`: only the default-constructed variant is invalid. -/
def QVariant.isValid (v : QVariant) : Bool := !v.isNull

/-- `QVariant::canConvert`: Qt decides convertibility by type, not by value;
every non-null variant of this small universe converts to each of the three
modelled tags. -/
def QVariant.canConvert : QVariant → QVariantType → Bool
  | .null, _ => false
  | _, _ => true

/-- Ordered `QVariant` comparison (`operator<`), defined on same-typed
values, the only comparisons the embedded validator performs. -/
def QVariant.lt : QVariant → QVariant → Bool
  | .intV a, .intV b => decide (a < b)
  | .stringV a, .stringV b => decide (a < b)
  | .boolV a, .boolV b => !a && b
  | _, _ => false

/-- Ordered `QVariant` comparison (`operator>`). -/
def QVariant.gt (a b : QVariant) : Bool := QVariant.lt b a

/-- A runtime parameter: name and value. -/
structure Param where
  name : String
  value : QVariant
deriving DecidableEq, Repr

/-- A schema slot: name, primitive type tag, optional default, optional
bounds (null when unset) and an optional allowed-value set. -/
structure ParamType where
  name : String
  type : QVariantType
  defaultValue : QVariant
  minValue : QVariant
  maxValue : QVariant
  allowedValues : List QVariant
deriving DecidableEq, Repr

/-- `DeviceManager::DeviceError`. -/
inductive DeviceError where
  | noError
  | pluginNotFound
  | deviceNotFound
  | deviceClassNotFound
  | actionTypeNotFound
  | stateTypeNotFound
  | eventTypeNotFound
  | deviceDescriptorNotFound
  | missingParameter
  | invalidParameter
  | setupFailed
  | duplicateUuid
  | creationMethodNotSupported
  | setupMethodNotSupported
  | hardwareNotAvailable
  | hardwareFailure
  | async
  | deviceInUse
  | pairingTransactionIdNotFound
deriving DecidableEq, Repr

/-- `DeviceManager::DeviceSetupStatus`. -/
inductive DeviceSetupStatus where
  | success
  | failure
  | async
deriving DecidableEq, Repr

/-- `DeviceClass::SetupMethod`. -/
inductive SetupMethod where
  | justAdd
  | displayPin
  | enterPin
  | pushButton
deriving DecidableEq, Repr

/-- `DeviceClass::CreateMethods` flag set. -/
structure CreateMethods where
  user : Bool
  discovery : Bool
  auto : Bool
deriving DecidableEq, Repr

/-- `DeviceManager::HardwareResources` flag set of a plugin. -/
structure HardwareResources where
  radio433 : Bool
  radio868 : Bool
  timer : Bool
  upnpDiscovery : Bool
deriving DecidableEq, Repr

/-- A state type of a `DeviceClass`: id and default value. -/
structure StateType where
  id : StateTypeId
  defaultValue : QVariant
deriving DecidableEq, Repr

/-- Immutable catalog entry for a device type. -/
structure DeviceClass where
  id : DeviceClassId
  pluginId : PluginId
  name : String
  createMethods : CreateMethods
  setupMethod : SetupMethod
  paramTypes : List ParamType
  stateTypes : List StateType
deriving DecidableEq, Repr

/-- A `State`: state type id, owning device id, and current value. -/
structure State where
  stateTypeId : StateTypeId
  deviceId : DeviceId
  value : QVariant
deriving DecidableEq, Repr

/-- A configured `Device`. -/
structure Device where
  pluginId : PluginId
  id : DeviceId
  deviceClassId : DeviceClassId
  name : String
  params : List Param
  states : List State
  setupComplete : Bool
deriving DecidableEq, Repr

/-- A transient discovery result. -/
structure DeviceDescriptor where
  id : DeviceDescriptorId
  deviceClassId : DeviceClassId
  title : String
  params : List Param
deriving DecidableEq, Repr

/-- A loaded `DevicePlugin`.  Plugins are external collaborators: the verdicts
their capabilities report back are modelled as plain data fields. -/
structure DevicePlugin where
  pluginId : PluginId
  requiredHardware : HardwareResources
  setupDeviceResult : DeviceSetupStatus
  confirmPairingResult : DeviceSetupStatus
deriving DecidableEq, Repr

/-- An `Event`: event type id, device id, params, and the flag separating
state-derived events from plugin-emitted ones. -/
structure Event where
  eventTypeId : EventTypeId
  deviceId : DeviceId
  params : List Param
  isStateChangeEvent : Bool
deriving DecidableEq, Repr

/-- Observable outputs of a `DeviceManager` operation: Qt signal emissions
and calls into plugins, listed in emission order. -/
inductive Emitted where
  | deviceSetupFinished (deviceId : DeviceId) (status : DeviceError)
  | deviceStateChanged (deviceId : DeviceId) (stateTypeId : StateTypeId) (value : QVariant)
  | eventTriggered (event : Event)
  | pairingFinished (pairingTransactionId : PairingTransactionId) (status : DeviceError)
      (deviceId : Option DeviceId)
  | timerKick
  | guhTimer (plugin : DevicePlugin)
  | radioData (plugin : DevicePlugin) (rawData : List Int)
  | deviceRemoved (pluginId : PluginId) (deviceId : DeviceId)
deriving DecidableEq, Repr

/-- The `DeviceManager`'s mutable state.  `storedDevices` models the
persisted `DeviceConfig` settings group. -/
structure DeviceManager where
  devicePlugins : List DevicePlugin
  supportedDevices : List DeviceClass
  configuredDevices : List Device
  discoveredDevices : List DeviceDescriptor
  discoveringPlugins : List DevicePlugin
  pairingsJustAdd : List (PairingTransactionId × DeviceClassId × List Param)
  pairingsDiscovery : List (PairingTransactionId × DeviceClassId × DeviceDescriptorId)
  pluginTimerActive : Bool
  pluginTimerInterval : Nat
  pluginTimerUsers : List DeviceId
  storedDevices : List Device
deriving DecidableEq, Repr

/-- Constructor state: the plugin timer is created with a 15000 ms interval
and is not started; every container is empty. -/
def DeviceManager.init : DeviceManager :=
  ⟨[], [], [], [], [], [], [], false, 15000, [], []⟩

/-- `DeviceManager::findDeviceClass` (also `m_supportedDevices.value(id)`:
the hash is keyed by the class id). -/
def findDeviceClass (dm : DeviceManager) (deviceClassId : DeviceClassId) : Option DeviceClass :=
  dm.supportedDevices.find? (fun deviceClass => deviceClass.id == deviceClassId)

/-- `m_devicePlugins.value(id)`. -/
def findPlugin (dm : DeviceManager) (pluginId : PluginId) : Option DevicePlugin :=
  dm.devicePlugins.find? (fun plugin => plugin.pluginId == pluginId)

/-- The plugin responsible for a device, resolved as `timerEvent` and
`radio433SignalReceived` do: `m_supportedDevices.value(deviceClassId)` then
`m_devicePlugins.value(deviceClass.pluginId())`.  A missing class yields the
null plugin. -/
def resolvedPlugin (dm : DeviceManager) (device : Device) : Option DevicePlugin :=
  (findDeviceClass dm device.deviceClassId).bind (fun dc => findPlugin dm dc.pluginId)

/-- `DeviceManager::verifyParam(const ParamType &, const Param &)`. -/
def verifyParamType (paramType : ParamType) (param : Param) : DeviceError :=
  if paramType.name = param.name then
    if !param.value.canConvert paramType.type then .invalidParameter
    else if paramType.maxValue.isValid && param.value.gt paramType.maxValue then .invalidParameter
    else if paramType.minValue.isValid && param.value.lt paramType.minValue then .invalidParameter
    else if !paramType.allowedValues.isEmpty
        && !paramType.allowedValues.contains param.value then .invalidParameter
    else .noError
  else .invalidParameter

/-- `DeviceManager::verifyParam(const QList<ParamType>, const Param &)`:
locate the `ParamType` by name; a param without a schema slot is invalid. -/
def verifyParam : List ParamType → Param → DeviceError
  | [], _ => .invalidParameter
  | paramType :: rest, param =>
    if paramType.name = param.name then verifyParamType paramType param
    else verifyParam rest param

/-- First loop of `DeviceManager::verifyParams`: every given param must
verify against its `ParamType`. -/
def verifyGivenParams (paramTypes : List ParamType) : List Param → DeviceError
  | [] => .noError
  | param :: rest =>
    let result := verifyParam paramTypes param
    if result ≠ .noError then result else verifyGivenParams paramTypes rest

/-- Second loop of `DeviceManager::verifyParams` (the `requireAll` pass),
walking the schema over the accumulating param list.  A `ParamType` with a
non-null default counts as found and its default is appended to the list;
one with no default must already be present or `MissingParameter` is
returned. -/
def requireAllLoop : List ParamType → List Param → DeviceError × List Param
  | [], params => (.noError, params)
  | paramType :: rest, params =>
    let found := params.any (fun param => paramType.name == param.name)
    if !paramType.defaultValue.isNull then
      requireAllLoop rest (params ++ [⟨paramType.name, paramType.defaultValue⟩])
    else if found then requireAllLoop rest params
    else (.missingParameter, params)

/-- `DeviceManager::verifyParams`.  Returns the error together with the
effective (possibly default-extended) param list that the C++ reference
argument holds on return. -/
def verifyParams (paramTypes : List ParamType) (params : List Param) (requireAll : Bool) :
    DeviceError × List Param :=
  let given := verifyGivenParams paramTypes params
  if given ≠ .noError then (given, params)
  else if !requireAll then (.noError, params)
  else requireAllLoop paramTypes params

/-- `DeviceManager::verifyPluginMetadata`, over the metadata object's key
set.  The source builds the required-field list `name`, `id`, `vendors` but
its loop tests `data.contains("name")` for every one of them. -/
def verifyPluginMetadata (data : List String) : Bool :=
  let requiredFields := ["name", "id", "vendors"]
  requiredFields.all (fun _field => data.contains "name")

/-- Timer registration block shared by `setupDevice` and
`slotDeviceSetupFinished`: start the 15 s timer (plus one immediate kick
tick) when it is not yet active, and record the device as a timer user. -/
def registerTimerUser (dm : DeviceManager) (plugin : DevicePlugin) (deviceId : DeviceId) :
    DeviceManager × List Emitted :=
  if plugin.requiredHardware.timer then
    if !dm.pluginTimerActive then
      ({ dm with pluginTimerActive := true,
                 pluginTimerUsers := dm.pluginTimerUsers ++ [deviceId] },
        [Emitted.timerKick])
    else
      ({ dm with pluginTimerUsers := dm.pluginTimerUsers ++ [deviceId] }, [])
  else (dm, [])

/-- Result of `DeviceManager::setupDevice`: the plugin's verdict, the
successor manager state, the (possibly mutated) device, and the outputs. -/
structure SetupDeviceResult where
  status : DeviceSetupStatus
  dm : DeviceManager
  device : Device
  emitted : List Emitted
deriving DecidableEq, Repr

/-- `DeviceManager::setupDevice`: resolve class and plugin (failure when
either is missing), initialise the device's states from the class's state
types, ask the plugin to set the device up, and on synchronous success
register the timer user and mark the device's setup complete. -/
def setupDevice (dm : DeviceManager) (device : Device) : SetupDeviceResult :=
  match findDeviceClass dm device.deviceClassId with
  | none => ⟨.failure, dm, device, []⟩
  | some deviceClass =>
    match findPlugin dm deviceClass.pluginId with
    | none => ⟨.failure, dm, device, []⟩
    | some plugin =>
      let device := { device with
        states := deviceClass.stateTypes.map
          (fun stateType => ⟨stateType.id, device.id, stateType.defaultValue⟩) }
      let status := plugin.setupDeviceResult
      if status ≠ .success then ⟨status, dm, device, []⟩
      else
        let (dm, kick) := registerTimerUser dm plugin device.id
        ⟨.success, dm, { device with setupComplete := true }, kick⟩

/-- Result of a `DeviceManager` call: error code, successor state, outputs. -/
structure CallResult where
  error : DeviceError
  dm : DeviceManager
  emitted : List Emitted
deriving DecidableEq, Repr

/-- `DeviceManager::addConfiguredDeviceInternal`.  The `requireAll` argument
of `verifyParams` is left at its default.  Modelled from the spec: the
default value `true` of `requireAll` is declared in `devicemanager.h`, which
is not part of the sources; the spec states that `addConfiguredDevice`
validates with `requireAll = true` (defaults materialised). -/
def addConfiguredDeviceInternal (dm : DeviceManager) (deviceClassId : DeviceClassId)
    (params : List Param) (id : DeviceId) : CallResult :=
  match findDeviceClass dm deviceClassId with
  | none => ⟨.deviceClassNotFound, dm, []⟩
  | some deviceClass =>
    if deviceClass.setupMethod ≠ .justAdd then ⟨.creationMethodNotSupported, dm, []⟩
    else
      let verified := verifyParams deviceClass.paramTypes params true
      if verified.1 ≠ .noError then ⟨verified.1, dm, []⟩
      else if dm.configuredDevices.any (fun device => device.id == id) then
        ⟨.duplicateUuid, dm, []⟩
      else
        match findPlugin dm deviceClass.pluginId with
        | none => ⟨.pluginNotFound, dm, []⟩
        | some plugin =>
          let device : Device :=
            ⟨plugin.pluginId, id, deviceClassId, deviceClass.name, verified.2, [], false⟩
          let r := setupDevice dm device
          match r.status with
          | .failure => ⟨.setupFailed, r.dm, r.emitted⟩
          | .async => ⟨.async, r.dm, r.emitted⟩
          | .success =>
            let dm2 := { r.dm with configuredDevices := r.dm.configuredDevices ++ [r.device] }
            ⟨.noError, { dm2 with storedDevices := dm2.configuredDevices }, r.emitted⟩

/-- `DeviceManager::addConfiguredDevice(deviceClassId, params, id)`, the
`CreateMethodUser` overload. -/
def addConfiguredDevice (dm : DeviceManager) (deviceClassId : DeviceClassId)
    (params : List Param) (id : DeviceId) : CallResult :=
  match findDeviceClass dm deviceClassId with
  | none => ⟨.deviceClassNotFound, dm, []⟩
  | some deviceClass =>
    if deviceClass.createMethods.user then addConfiguredDeviceInternal dm deviceClassId params id
    else ⟨.creationMethodNotSupported, dm, []⟩

/-- `DeviceManager::addConfiguredDevice(deviceClassId, deviceDescriptorId,
deviceId)`, the discovery overload: `m_discoveredDevices.take` removes the
descriptor before validation or setup are attempted. -/
def addConfiguredDeviceByDescriptor (dm : DeviceManager) (deviceClassId : DeviceClassId)
    (deviceDescriptorId : DeviceDescriptorId) (deviceId : DeviceId) : CallResult :=
  match findDeviceClass dm deviceClassId with
  | none => ⟨.deviceClassNotFound, dm, []⟩
  | some deviceClass =>
    if !deviceClass.createMethods.discovery then ⟨.creationMethodNotSupported, dm, []⟩
    else
      match dm.discoveredDevices.find? (fun d => d.id == deviceDescriptorId) with
      | none => ⟨.deviceDescriptorNotFound, dm, []⟩
      | some descriptor =>
        let dm := { dm with discoveredDevices :=
          dm.discoveredDevices.filter (fun d => d.id != deviceDescriptorId) }
        addConfiguredDeviceInternal dm deviceClassId descriptor.params deviceId

/-- `DeviceManager::removeConfiguredDevice`: drop the device, notify its
plugin, unregister it from the timer users (stopping the timer when none are
left) and erase its persisted configuration. -/
def removeConfiguredDevice (dm : DeviceManager) (deviceId : DeviceId) : CallResult :=
  match dm.configuredDevices.find? (fun device => device.id == deviceId) with
  | none => ⟨.deviceNotFound, dm, []⟩
  | some device =>
    let dm := { dm with configuredDevices :=
      dm.configuredDevices.filter (fun d => d.id != deviceId) }
    let dm := { dm with pluginTimerUsers :=
      dm.pluginTimerUsers.filter (fun i => i != deviceId) }
    let dm := if dm.pluginTimerUsers.isEmpty then { dm with pluginTimerActive := false } else dm
    let dm := { dm with storedDevices := dm.storedDevices.filter (fun d => d.id != deviceId) }
    ⟨.noError, dm, [Emitted.deviceRemoved device.pluginId device.id]⟩

/-- `DeviceManager::confirmPairing`.  The descriptor params of the recorded
transaction are handed to the plugin, whose verdict is the data field
`confirmPairingResult`. -/
def confirmPairing (dm : DeviceManager) (pairingTransactionId : PairingTransactionId)
    (_secret : String) : CallResult :=
  if dm.pairingsJustAdd.any (fun p => p.1 == pairingTransactionId) then
    ⟨.setupFailed,
      { dm with pairingsJustAdd :=
        dm.pairingsJustAdd.filter (fun p => p.1 != pairingTransactionId) },
      []⟩
  else
    match dm.pairingsDiscovery.find? (fun p => p.1 == pairingTransactionId) with
    | some entry =>
      let deviceClassId := entry.2.1
      let classPluginId := ((findDeviceClass dm deviceClassId).map DeviceClass.pluginId).getD 0
      match findPlugin dm classPluginId with
      | none => ⟨.pluginNotFound, dm, []⟩
      | some plugin =>
        match plugin.confirmPairingResult with
        | .success =>
          ⟨.noError,
            { dm with pairingsDiscovery :=
              dm.pairingsDiscovery.filter (fun p => p.1 != pairingTransactionId) },
            []⟩
        | .failure =>
          ⟨.setupFailed,
            { dm with pairingsDiscovery :=
              dm.pairingsDiscovery.filter (fun p => p.1 != pairingTransactionId) },
            []⟩
        | .async => ⟨.async, dm, []⟩
    | none => ⟨.pairingTransactionIdNotFound, dm, []⟩

/-- `DeviceManager::slotPairingFinished`.  The fresh id produced by
`DeviceId::createDeviceId()` is passed in as `freshId`.  Note that in the
setup-failure branch the source `break`s out of the switch after deleting the
device and then still appends it and stores the configured devices, emitting
a second `deviceSetupFinished` carrying `NoError`; this fall-through is
modelled as it stands. -/
def slotPairingFinished (dm : DeviceManager) (pairingTransactionId : PairingTransactionId)
    (status : DeviceSetupStatus) (freshId : DeviceId) : DeviceManager × List Emitted :=
  if !dm.pairingsJustAdd.any (fun p => p.1 == pairingTransactionId)
      && !dm.pairingsDiscovery.any (fun p => p.1 == pairingTransactionId) then
    (dm, [])
  else
    let (deviceClassId, params, dm) :=
      match dm.pairingsJustAdd.find? (fun p => p.1 == pairingTransactionId) with
      | some entry =>
        (entry.2.1, entry.2.2,
          { dm with pairingsJustAdd :=
            dm.pairingsJustAdd.filter (fun p => p.1 != pairingTransactionId) })
      | none => (0, [], dm)
    let (deviceClassId, params, dm) :=
      match dm.pairingsDiscovery.find? (fun p => p.1 == pairingTransactionId) with
      | some entry =>
        let descriptor? := dm.discoveredDevices.find? (fun d => d.id == entry.2.2)
        let dm := { dm with
          pairingsDiscovery :=
            dm.pairingsDiscovery.filter (fun p => p.1 != pairingTransactionId),
          discoveredDevices := dm.discoveredDevices.filter (fun d => d.id != entry.2.2) }
        (entry.2.1, (descriptor?.map DeviceDescriptor.params).getD [], dm)
      | none => (deviceClassId, params, dm)
    if status ≠ .success then
      (dm, [Emitted.pairingFinished pairingTransactionId .setupFailed none])
    else
      let classPluginId := ((findDeviceClass dm deviceClassId).map DeviceClass.pluginId).getD 0
      match findPlugin dm classPluginId with
      | none =>
        (dm, [Emitted.pairingFinished pairingTransactionId .pluginNotFound (some classPluginId)])
      | some plugin =>
        let className := ((findDeviceClass dm deviceClassId).map DeviceClass.name).getD ""
        let device : Device := ⟨plugin.pluginId, freshId, deviceClassId, className, params, [], false⟩
        let sig1 := Emitted.pairingFinished pairingTransactionId .noError (some freshId)
        let r := setupDevice dm device
        match r.status with
        | .async => (r.dm, [sig1] ++ r.emitted)
        | .failure =>
          let dm2 := { r.dm with configuredDevices := r.dm.configuredDevices ++ [r.device] }
          ({ dm2 with storedDevices := dm2.configuredDevices },
            [sig1] ++ r.emitted
              ++ [Emitted.deviceSetupFinished r.device.id .setupFailed,
                  Emitted.deviceSetupFinished r.device.id .noError])
        | .success =>
          let dm2 := { r.dm with configuredDevices := r.dm.configuredDevices ++ [r.device] }
          ({ dm2 with storedDevices := dm2.configuredDevices },
            [sig1] ++ r.emitted ++ [Emitted.deviceSetupFinished r.device.id .noError])

/-- Loop of `DeviceManager::timerEvent` over the configured devices: one
`guhTimer` call for every device whose (non-null) plugin requires the timer
resource. -/
def timerEventLoop (dm : DeviceManager) : List Device → List Emitted
  | [] => []
  | device :: rest =>
    (match resolvedPlugin dm device with
     | some plugin =>
       if plugin.requiredHardware.timer then [Emitted.guhTimer plugin] else []
     | none => []) ++ timerEventLoop dm rest

/-- `DeviceManager::timerEvent`. -/
def timerEvent (dm : DeviceManager) : List Emitted :=
  timerEventLoop dm dm.configuredDevices

/-- First loop of `radio433SignalReceived`: collect the plugins of configured
devices that require the 433 MHz radio, deduplicated against the
accumulator.  (The source dereferences the plugin with no null check; an
unresolvable device is modelled as contributing nothing.) -/
def radio433ConfiguredLoop (dm : DeviceManager) :
    List Device → List DevicePlugin → List DevicePlugin
  | [], acc => acc
  | device :: rest, acc =>
    match resolvedPlugin dm device with
    | some plugin =>
      if plugin.requiredHardware.radio433 && !acc.contains plugin then
        radio433ConfiguredLoop dm rest (acc ++ [plugin])
      else radio433ConfiguredLoop dm rest acc
    | none => radio433ConfiguredLoop dm rest acc

/-- Second loop of `radio433SignalReceived`: plugins with a running discovery
that require the 433 MHz radio, deduplicated against the accumulator. -/
def radio433DiscoveringLoop : List DevicePlugin → List DevicePlugin → List DevicePlugin
  | [], acc => acc
  | plugin :: rest, acc =>
    if plugin.requiredHardware.radio433 && !acc.contains plugin then
      radio433DiscoveringLoop rest (acc ++ [plugin])
    else radio433DiscoveringLoop rest acc

/-- `DeviceManager::radio433SignalReceived`: fan the raw frame out to every
collected target plugin, in collection order. -/
def radio433SignalReceived (dm : DeviceManager) (rawData : List Int) : List Emitted :=
  let targetPlugins := radio433DiscoveringLoop dm.discoveringPlugins
    (radio433ConfiguredLoop dm dm.configuredDevices [])
  targetPlugins.map (fun plugin => Emitted.radioData plugin rawData)

/-- `DeviceManager::slotDeviceStateValueChanged` (the sender device is passed
explicitly).  The synthetic event reuses the state type id as its event type
id (`EventTypeId(stateTypeId.toString())`, the identity on uuids). -/
def slotDeviceStateValueChanged (device : Device) (stateTypeId : StateTypeId)
    (value : QVariant) : List Emitted :=
  let valueParam : Param := ⟨"value", value⟩
  let event : Event := ⟨stateTypeId, device.id, [valueParam], true⟩
  [Emitted.deviceStateChanged device.id stateTypeId value, Emitted.eventTriggered event]

/-- Spec-side description of the interested-plugin set for the 433 MHz radio
(claim C8): a plugin that requires the radio and either owns a configured
device or is running a discovery. -/
def interestedInRadio433 (dm : DeviceManager) (plugin : DevicePlugin) : Bool :=
  plugin.requiredHardware.radio433 &&
    (dm.configuredDevices.any (fun device => resolvedPlugin dm device == some plugin)
      || dm.discoveringPlugins.contains plugin)

/-- Timer invariant of claim C6: the 15 s timer is active exactly when the
reference-counting list of timer users is nonempty. -/
def timerInvariant (dm : DeviceManager) : Prop :=
  dm.pluginTimerActive = true ↔ dm.pluginTimerUsers ≠ []

/-! ### Fixtures used by concrete witnesses and counterexamples -/

/-- Fixture hardware set: nothing required. -/
def hwNone : HardwareResources := ⟨false, false, false, false⟩

/-- Fixture hardware set: only the timer resource. -/
def hwTimer : HardwareResources := ⟨false, false, true, false⟩

/-- Fixture hardware set: only the 433 MHz radio. -/
def hwRadio433 : HardwareResources := ⟨true, false, false, false⟩

/-- Fixture plugin requiring the timer; every verdict succeeds. -/
def pluginTimerP : DevicePlugin := ⟨1, hwTimer, .success, .success⟩

/-- Fixture device class owned by `pluginTimerP`. -/
def classTimer : DeviceClass := ⟨2, 1, "timerclass", ⟨true, false, false⟩, .justAdd, [], []⟩

/-- First fixture configured device of `classTimer`. -/
def deviceT1 : Device := ⟨1, 10, 2, "timerclass", [], [], true⟩

/-- Second fixture configured device of `classTimer`. -/
def deviceT2 : Device := ⟨1, 11, 2, "timerclass", [], [], true⟩

/-- Fixture manager owning two configured timer devices of one plugin. -/
def dmTwoTimerDevices : DeviceManager :=
  { DeviceManager.init with
    devicePlugins := [pluginTimerP]
    supportedDevices := [classTimer]
    configuredDevices := [deviceT1, deviceT2] }

/-- Fixture plugin with no hardware requirements; every verdict succeeds. -/
def pluginPlain : DevicePlugin := ⟨1, hwNone, .success, .success⟩

/-- Fixture plugin whose synchronous device setup fails. -/
def pluginSetupFail : DevicePlugin := ⟨1, hwNone, .failure, .success⟩

/-- Fixture plugin whose pairing confirmation fails synchronously. -/
def pluginPairFail : DevicePlugin := ⟨1, hwNone, .success, .failure⟩

/-- Fixture user-creatable, just-add class with no declared params. -/
def classUser : DeviceClass := ⟨3, 1, "userclass", ⟨true, false, false⟩, .justAdd, [], []⟩

/-- Fixture configured device of `classUser` with id 7. -/
def deviceU : Device := ⟨1, 7, 3, "userclass", [], [], true⟩

/-- Fixture manager owning `deviceU`. -/
def dmUser : DeviceManager :=
  { DeviceManager.init with
    devicePlugins := [pluginPlain]
    supportedDevices := [classUser]
    configuredDevices := [deviceU] }

/-- Fixture discovery-creatable, just-add class. -/
def classDisc : DeviceClass := ⟨4, 1, "discclass", ⟨false, true, false⟩, .justAdd, [], []⟩

/-- Fixture descriptor of `classDisc` sitting in the discovery pool. -/
def descDisc : DeviceDescriptor := ⟨8, 4, "found", []⟩

/-- Fixture manager with `descDisc` discovered and a failing-setup plugin. -/
def dmDisc : DeviceManager :=
  { DeviceManager.init with
    devicePlugins := [pluginSetupFail]
    supportedDevices := [classDisc]
    discoveredDevices := [descDisc] }

/-- Fixture pairing class: discovery-created, push-button setup. -/
def classPair : DeviceClass := ⟨2, 1, "pairclass", ⟨false, true, false⟩, .pushButton, [], []⟩

/-- Fixture descriptor of `classPair`. -/
def descPair : DeviceDescriptor := ⟨7, 2, "pairdesc", []⟩

/-- Fixture manager with one recorded discovery pairing transaction (id 5)
whose plugin confirms synchronously with success. -/
def dmPairOk : DeviceManager :=
  { DeviceManager.init with
    devicePlugins := [pluginPlain]
    supportedDevices := [classPair]
    discoveredDevices := [descPair]
    pairingsDiscovery := [(5, 2, 7)] }

/-- Fixture manager with one recorded discovery pairing transaction (id 5)
whose plugin confirms synchronously with failure. -/
def dmPairFail : DeviceManager :=
  { dmPairOk with devicePlugins := [pluginPairFail] }

/-- Fixture manager with the timer plugin loaded and no configured
devices. -/
def dmTimerIdle : DeviceManager :=
  { DeviceManager.init with
    devicePlugins := [pluginTimerP]
    supportedDevices := [classTimer] }

/-- Fixture device of `classTimer` not yet set up. -/
def deviceT3 : Device := ⟨1, 12, 2, "timerclass", [], [], false⟩

/-! ### Shared helper lemmas -/

/-- A predicate failing on every element means `find?` yields nothing. -/
theorem find?_eq_none_of_any_eq_false {α : Type} {p : α → Bool} {l : List α}
    (h : l.any p = false) : l.find? p = none := by
  rw [List.find?_eq_none]
  intro x hx
  rw [List.any_eq_false] at h
  exact h x hx

/-- Searching with the constantly-false predicate yields nothing. -/
theorem find?_const_false {α : Type} (l : List α) : l.find? (fun _ => false) = none := by
  rw [List.find?_eq_none]
  intro x hx
  simp

/-- Filtering out a key means searching for it afterwards fails. -/
theorem any_filter_key_eq_false {α : Type} (f : α → Uuid) (tx : Uuid) (l : List α) :
    ((l.filter (fun a => f a != tx)).any (fun a => f a == tx)) = false := by
  rw [List.any_eq_false]
  intro x hx
  have hmem := List.of_mem_filter hx
  simpa using hmem

/-- Filtering out a key means `find?` for it afterwards yields nothing. -/
theorem find?_filter_key_eq_none {α : Type} (f : α → Uuid) (tx : Uuid) (l : List α) :
    ((l.filter (fun a => f a != tx)).find? (fun a => f a == tx)) = none :=
  find?_eq_none_of_any_eq_false (any_filter_key_eq_false f tx l)

/-! ### C1 -/

/-- C1: running `verifyParams` with `requireAll = true` on a schema with one
defaulted `ParamType` whose param is already supplied: the call reports
`NoError`, yet the effective list carries the name twice because the default
is materialised although the param is present.  This refutes both exactly
one param per declared `ParamType` and materialisation only on absence. -/
theorem verifyParams_duplicates_supplied_defaulted_param :
    (verifyParams [⟨"n", .intType, .intV 3, .null, .intV 10, []⟩]
        [⟨"n", .intV 5⟩] true).1 = .noError ∧
      (verifyParams [⟨"n", .intType, .intV 3, .null, .intV 10, []⟩]
          [⟨"n", .intV 5⟩] true).2
        = [⟨"n", .intV 5⟩, ⟨"n", .intV 3⟩] ∧
      ((verifyParams [⟨"n", .intType, .intV 3, .null, .intV 10, []⟩]
            [⟨"n", .intV 5⟩] true).2.filter (fun param => param.name == "n")).length = 2 :=
  ⟨rfl, rfl, rfl⟩

/-! ### C5 -/

/-- C5: the metadata check accepts an object that exposes `name` but neither
`id` nor `vendors`: the loop over the required fields tests
`contains("name")` for every field, so the accepts-iff-all-three-keys claim
fails on this input. -/
theorem verifyPluginMetadata_accepts_name_only :
    verifyPluginMetadata ["name"] = true ∧
      "id" ∉ (["name"] : List String) ∧
      "vendors" ∉ (["name"] : List String) := by
  refine ⟨rfl, ?_, ?_⟩ <;> decide

/-! ### C9 -/

/-- C9: a state value change emits `deviceStateChanged(device, stateTypeId,
value)` followed by a state-derived synthetic event whose event type id is
the state type id, whose device id is the device's, and whose param list is
exactly `[("value", value)]`. -/
theorem stateChange_emits_change_then_event :
    ∀ (device : Device) (stateTypeId : StateTypeId) (value : QVariant),
      ∃ event : Event,
        slotDeviceStateValueChanged device stateTypeId value
            = [Emitted.deviceStateChanged device.id stateTypeId value,
               Emitted.eventTriggered event] ∧
          event.eventTypeId = stateTypeId ∧
          event.deviceId = device.id ∧
          event.params = [⟨"value", value⟩] ∧
          event.isStateChangeEvent = true := by
  intro device stateTypeId value
  exact ⟨⟨stateTypeId, device.id, [⟨"value", value⟩], true⟩, rfl, rfl, rfl, rfl, rfl⟩

/-! ### C7 -/

/-- Per-plugin tick count of the `timerEvent` loop equals the number of
devices in the list that resolve to that plugin, when it requires the
timer. -/
theorem timerEventLoop_count (dm : DeviceManager) (plugin : DevicePlugin) :
    ∀ l : List Device,
      (timerEventLoop dm l).count (Emitted.guhTimer plugin)
        = l.countP (fun device =>
            (resolvedPlugin dm device == some plugin) && plugin.requiredHardware.timer)
  | [] => rfl
  | device :: rest => by
    simp only [timerEventLoop, List.count_append, List.countP_cons,
      timerEventLoop_count dm plugin rest]
    cases hres : resolvedPlugin dm device with
    | none => simp
    | some q =>
      by_cases hq : q = plugin
      · subst hq
        by_cases ht : q.requiredHardware.timer <;>
          simp [ht, List.count_cons, Nat.add_comm]
      · by_cases ht : q.requiredHardware.timer <;>
          simp [ht, hq, List.count_cons]

/-- C7 counterexample: a single loaded plugin requiring the timer and owning
two configured devices receives two `guhTimer` invocations on one tick,
refuting exactly one invocation per plugin. -/
theorem timerEvent_two_calls_for_two_devices :
    pluginTimerP ∈ dmTwoTimerDevices.devicePlugins ∧
      pluginTimerP.requiredHardware.timer = true ∧
      (timerEvent dmTwoTimerDevices).count (Emitted.guhTimer pluginTimerP) = 2 := by
  refine ⟨?_, rfl, ?_⟩ <;> decide

/-- C7 amended: on each tick `guhTimer` is invoked once per configured
device whose device class resolves to a loaded plugin requiring the timer
resource, so a plugin receives as many invocations as it owns such devices
(in particular none when it owns none). -/
theorem timerEvent_count_eq_owned_device_count :
    ∀ (dm : DeviceManager) (plugin : DevicePlugin),
      (timerEvent dm).count (Emitted.guhTimer plugin)
        = dm.configuredDevices.countP (fun device =>
            (resolvedPlugin dm device == some plugin) && plugin.requiredHardware.timer) :=
  fun dm plugin => timerEventLoop_count dm plugin dm.configuredDevices

/-! ### State-preservation helper lemmas -/

/-- `registerTimerUser` only touches the timer bookkeeping fields. -/
theorem registerTimerUser_preserves (dm : DeviceManager) (plugin : DevicePlugin) (id : DeviceId) :
    (registerTimerUser dm plugin id).1.devicePlugins = dm.devicePlugins ∧
      (registerTimerUser dm plugin id).1.supportedDevices = dm.supportedDevices ∧
      (registerTimerUser dm plugin id).1.configuredDevices = dm.configuredDevices ∧
      (registerTimerUser dm plugin id).1.discoveredDevices = dm.discoveredDevices ∧
      (registerTimerUser dm plugin id).1.discoveringPlugins = dm.discoveringPlugins ∧
      (registerTimerUser dm plugin id).1.pairingsJustAdd = dm.pairingsJustAdd ∧
      (registerTimerUser dm plugin id).1.pairingsDiscovery = dm.pairingsDiscovery ∧
      (registerTimerUser dm plugin id).1.storedDevices = dm.storedDevices := by
  unfold registerTimerUser
  split
  · split <;> simp
  · simp

/-- `setupDevice` only touches the timer bookkeeping fields of the
manager. -/
theorem setupDevice_preserves (dm : DeviceManager) (device : Device) :
    (setupDevice dm device).dm.devicePlugins = dm.devicePlugins ∧
      (setupDevice dm device).dm.supportedDevices = dm.supportedDevices ∧
      (setupDevice dm device).dm.configuredDevices = dm.configuredDevices ∧
      (setupDevice dm device).dm.discoveredDevices = dm.discoveredDevices ∧
      (setupDevice dm device).dm.discoveringPlugins = dm.discoveringPlugins ∧
      (setupDevice dm device).dm.pairingsJustAdd = dm.pairingsJustAdd ∧
      (setupDevice dm device).dm.pairingsDiscovery = dm.pairingsDiscovery ∧
      (setupDevice dm device).dm.storedDevices = dm.storedDevices := by
  unfold setupDevice
  cases hfc : findDeviceClass dm device.deviceClassId with
  | none => simp only [hfc]; simp
  | some deviceClass =>
    simp only [hfc]
    cases hfp : findPlugin dm deviceClass.pluginId with
    | none => simp only [hfp]; simp
    | some plugin =>
      simp only [hfp]
      split
      · simp
      · simpa using registerTimerUser_preserves dm plugin device.id

/-- Disjunctive shape of `addConfiguredDeviceInternal`: either the call
reports `NoError` or `Async`, or it left the configured-device list and the
persisted store untouched. -/
theorem addConfiguredDeviceInternal_cases (dm : DeviceManager) (deviceClassId : DeviceClassId)
    (params : List Param) (id : DeviceId) :
    ((addConfiguredDeviceInternal dm deviceClassId params id).error = .noError ∨
      (addConfiguredDeviceInternal dm deviceClassId params id).error = .async) ∨
    ((addConfiguredDeviceInternal dm deviceClassId params id).dm.configuredDevices
        = dm.configuredDevices ∧
      (addConfiguredDeviceInternal dm deviceClassId params id).dm.storedDevices
        = dm.storedDevices) := by
  unfold addConfiguredDeviceInternal
  cases hfc : findDeviceClass dm deviceClassId with
  | none => simp [hfc]
  | some deviceClass =>
    simp only [hfc]
    split
    · simp
    · split
      · simp
      · split
        · simp
        · cases hfp : findPlugin dm deviceClass.pluginId with
          | none => simp [hfp]
          | some plugin =>
            simp only [hfp]
            split
            · right
              exact ⟨(setupDevice_preserves dm _).2.2.1,
                (setupDevice_preserves dm _).2.2.2.2.2.2.2⟩
            · left; right; rfl
            · left; left; rfl

/-- `addConfiguredDeviceInternal` never touches the catalog, the plugin
list, the discovery pool or the pairing tables. -/
theorem addConfiguredDeviceInternal_preserves (dm : DeviceManager) (deviceClassId : DeviceClassId)
    (params : List Param) (id : DeviceId) :
    (addConfiguredDeviceInternal dm deviceClassId params id).dm.devicePlugins
        = dm.devicePlugins ∧
      (addConfiguredDeviceInternal dm deviceClassId params id).dm.supportedDevices
        = dm.supportedDevices ∧
      (addConfiguredDeviceInternal dm deviceClassId params id).dm.discoveredDevices
        = dm.discoveredDevices ∧
      (addConfiguredDeviceInternal dm deviceClassId params id).dm.pairingsJustAdd
        = dm.pairingsJustAdd ∧
      (addConfiguredDeviceInternal dm deviceClassId params id).dm.pairingsDiscovery
        = dm.pairingsDiscovery := by
  unfold addConfiguredDeviceInternal
  cases hfc : findDeviceClass dm deviceClassId with
  | none => simp [hfc]
  | some deviceClass =>
    simp only [hfc]
    split
    · simp
    · split
      · simp
      · split
        · simp
        · cases hfp : findPlugin dm deviceClass.pluginId with
          | none => simp [hfp]
          | some plugin =>
            simp only [hfp]
            have h := setupDevice_preserves dm
              ⟨plugin.pluginId, id, deviceClassId, deviceClass.name,
                (verifyParams deviceClass.paramTypes params true).2, [], false⟩
            split
            · exact ⟨h.1, h.2.1, h.2.2.2.1, h.2.2.2.2.2.1, h.2.2.2.2.2.2.1⟩
            · exact ⟨h.1, h.2.1, h.2.2.2.1, h.2.2.2.2.2.1, h.2.2.2.2.2.2.1⟩
            · exact ⟨h.1, h.2.1, h.2.2.2.1, h.2.2.2.2.2.1, h.2.2.2.2.2.2.1⟩

/-! ### C2 -/

/-- C2: the user overload of `addConfiguredDevice` validates the given
params against the class's `paramTypes` with `requireAll = true` and
surfaces the validation error; after passing validation, a `DeviceId`
already used by a configured device is rejected with `DuplicateUuid`; and on
every error return the configured-device list and the persisted store are
unchanged. -/
theorem addConfiguredDevice_validates_and_is_atomic :
    (∀ (dm : DeviceManager) (deviceClassId : DeviceClassId) (params : List Param)
        (id : DeviceId) (deviceClass : DeviceClass),
      findDeviceClass dm deviceClassId = some deviceClass →
      deviceClass.createMethods.user = true →
      deviceClass.setupMethod = .justAdd →
      (verifyParams deviceClass.paramTypes params true).1 ≠ .noError →
      (addConfiguredDevice dm deviceClassId params id).error
        = (verifyParams deviceClass.paramTypes params true).1) ∧
    (∀ (dm : DeviceManager) (deviceClassId : DeviceClassId) (params : List Param)
        (id : DeviceId) (deviceClass : DeviceClass),
      findDeviceClass dm deviceClassId = some deviceClass →
      deviceClass.createMethods.user = true →
      deviceClass.setupMethod = .justAdd →
      (verifyParams deviceClass.paramTypes params true).1 = .noError →
      (∃ device ∈ dm.configuredDevices, device.id = id) →
      (addConfiguredDevice dm deviceClassId params id).error = .duplicateUuid) ∧
    (∀ (dm : DeviceManager) (deviceClassId : DeviceClassId) (params : List Param)
        (id : DeviceId),
      (addConfiguredDevice dm deviceClassId params id).error ≠ .noError →
      (addConfiguredDevice dm deviceClassId params id).error ≠ .async →
      (addConfiguredDevice dm deviceClassId params id).dm.configuredDevices
          = dm.configuredDevices ∧
        (addConfiguredDevice dm deviceClassId params id).dm.storedDevices
          = dm.storedDevices) := by
  refine ⟨?_, ?_, ?_⟩
  · intro dm deviceClassId params id deviceClass hfc huser hjust hverr
    simp [addConfiguredDevice, addConfiguredDeviceInternal, hfc, huser, hjust, hverr]
  · intro dm deviceClassId params id deviceClass hfc huser hjust hvok hdup
    obtain ⟨device, hmem, hid⟩ := hdup
    have hany : dm.configuredDevices.any (fun device => device.id == id) = true :=
      List.any_eq_true.mpr ⟨device, hmem, by simp [hid]⟩
    simp [addConfiguredDevice, addConfiguredDeviceInternal, hfc, huser, hjust, hvok, hany]
  · intro dm deviceClassId params id hne hna
    unfold addConfiguredDevice at hne hna ⊢
    cases hfc : findDeviceClass dm deviceClassId with
    | none => simp [hfc]
    | some deviceClass =>
      simp only [hfc] at hne hna ⊢
      by_cases hu : deviceClass.createMethods.user = true
      · rw [if_pos hu] at hne hna ⊢
        rcases addConfiguredDeviceInternal_cases dm deviceClassId params id with h | h
        · cases h with
          | inl h0 => exact absurd h0 hne
          | inr h0 => exact absurd h0 hna
        · exact h
      · rw [if_neg hu]
        exact ⟨rfl, rfl⟩

/-- C2 witness: a concrete duplicate-id rejection obtained from the
theorem. -/
theorem addConfiguredDevice_validates_and_is_atomic_witness :
    (addConfiguredDevice dmUser 3 [] 7).error = .duplicateUuid :=
  addConfiguredDevice_validates_and_is_atomic.2.1 dmUser 3 [] 7 classUser rfl rfl rfl rfl
    ⟨deviceU, by decide, rfl⟩

/-! ### C10 -/

/-- After a successful descriptor lookup, the descriptor overload always
filters the descriptor out of the pool and leaves the catalog alone,
whatever the rest of the call does. -/
theorem addConfiguredDeviceByDescriptor_effect (dm : DeviceManager)
    (deviceClassId : DeviceClassId) (deviceDescriptorId : DeviceDescriptorId)
    (deviceId : DeviceId) (deviceClass : DeviceClass) (descriptor : DeviceDescriptor)
    (hfc : findDeviceClass dm deviceClassId = some deviceClass)
    (hdisc : deviceClass.createMethods.discovery = true)
    (hfind : dm.discoveredDevices.find? (fun d => d.id == deviceDescriptorId)
      = some descriptor) :
    (addConfiguredDeviceByDescriptor dm deviceClassId deviceDescriptorId
          deviceId).dm.discoveredDevices
        = dm.discoveredDevices.filter (fun d => d.id != deviceDescriptorId) ∧
      (addConfiguredDeviceByDescriptor dm deviceClassId deviceDescriptorId
          deviceId).dm.supportedDevices
        = dm.supportedDevices := by
  unfold addConfiguredDeviceByDescriptor
  simp only [hfc, hdisc, hfind, Bool.not_true, Bool.false_eq_true, if_false]
  constructor
  · simpa using (addConfiguredDeviceInternal_preserves
      { dm with discoveredDevices :=
        dm.discoveredDevices.filter (fun d => d.id != deviceDescriptorId) }
      deviceClassId descriptor.params deviceId).2.2.1
  · simpa using (addConfiguredDeviceInternal_preserves
      { dm with discoveredDevices :=
        dm.discoveredDevices.filter (fun d => d.id != deviceDescriptorId) }
      deviceClassId descriptor.params deviceId).2.1

/-- C10: with a resolvable discovery-capable class, the descriptor overload
of `addConfiguredDevice` removes the named descriptor from the discovery
pool no matter how the call ends, so an identical second call fails with
`DeviceDescriptorNotFound`. -/
theorem addConfiguredDevice_consumes_descriptor :
    ∀ (dm : DeviceManager) (deviceClassId : DeviceClassId)
      (descriptorId : DeviceDescriptorId) (deviceId deviceId2 : DeviceId)
      (deviceClass : DeviceClass) (descriptor : DeviceDescriptor),
      findDeviceClass dm deviceClassId = some deviceClass →
      deviceClass.createMethods.discovery = true →
      dm.discoveredDevices.find? (fun d => d.id == descriptorId) = some descriptor →
      ((addConfiguredDeviceByDescriptor dm deviceClassId descriptorId
            deviceId).dm.discoveredDevices.find? (fun d => d.id == descriptorId) = none) ∧
        (addConfiguredDeviceByDescriptor
            (addConfiguredDeviceByDescriptor dm deviceClassId descriptorId deviceId).dm
            deviceClassId descriptorId deviceId2).error = .deviceDescriptorNotFound := by
  intro dm deviceClassId descriptorId deviceId deviceId2 deviceClass descriptor hfc hdisc hfind
  obtain ⟨hD, hS⟩ := addConfiguredDeviceByDescriptor_effect dm deviceClassId descriptorId
    deviceId deviceClass descriptor hfc hdisc hfind
  have hnone : (addConfiguredDeviceByDescriptor dm deviceClassId descriptorId
      deviceId).dm.discoveredDevices.find? (fun d => d.id == descriptorId) = none := by
    rw [hD]
    exact find?_filter_key_eq_none (fun d => d.id) descriptorId dm.discoveredDevices
  refine ⟨hnone, ?_⟩
  have hfc2 : findDeviceClass (addConfiguredDeviceByDescriptor dm deviceClassId descriptorId
      deviceId).dm deviceClassId = some deviceClass := by
    unfold findDeviceClass at hfc ⊢
    rw [hS]
    exact hfc
  generalize hdm1 : (addConfiguredDeviceByDescriptor dm deviceClassId descriptorId
      deviceId).dm = dm1 at hnone hfc2
  unfold addConfiguredDeviceByDescriptor
  simp [hfc2, hdisc, hnone]

/-- C10 witness: even though the first call fails with `SetupFailed`, the
descriptor is consumed and the second call reports it missing. -/
theorem addConfiguredDevice_consumes_descriptor_witness :
    (addConfiguredDeviceByDescriptor
        (addConfiguredDeviceByDescriptor dmDisc 4 8 20).dm 4 8 21).error
      = .deviceDescriptorNotFound :=
  (addConfiguredDevice_consumes_descriptor dmDisc 4 8 20 21 classDisc descDisc rfl rfl rfl).2

/-! ### C3 and C4: synchronous pairing counterexamples -/

/-- C3 counterexample: with transaction 5 recorded by `pairDevice` and a
plugin whose pairing confirmation reports Success synchronously,
`confirmPairing` returns `NoError` but emits no `pairingFinished`
notification, issues no `DeviceId` and creates no device. -/
theorem confirmPairing_sync_success_emits_nothing :
    (confirmPairing dmPairOk 5 "secret").error = .noError ∧
      (confirmPairing dmPairOk 5 "secret").emitted = [] ∧
      (confirmPairing dmPairOk 5 "secret").dm.configuredDevices = [] := by
  refine ⟨?_, ?_, ?_⟩ <;> rfl

/-- C4 counterexample: with transaction 5 recorded by `pairDevice` and a
plugin whose pairing confirmation reports Failure synchronously,
`confirmPairing` returns `SetupFailed` but emits no
`pairingFinished(tx, SetupFailed)` notification. -/
theorem confirmPairing_sync_failure_emits_nothing :
    (confirmPairing dmPairFail 5 "bad").error = .setupFailed ∧
      (confirmPairing dmPairFail 5 "bad").emitted = [] ∧
      (confirmPairing dmPairFail 5 "bad").dm.configuredDevices = [] := by
  refine ⟨?_, ?_, ?_⟩ <;> rfl

/-- C4 amended: when the plugin's pairing confirmation reports Failure
synchronously, `confirmPairing` returns `SetupFailed` to its caller without
emitting any notification, no device is created, and the transaction is
invalidated so that a subsequent `confirmPairing` returns
`PairingTransactionIdNotFound`; the `pairingFinished(tx, SetupFailed)`
notification is emitted (again with no device created and the transaction
consumed) exactly when the failure arrives through the plugin's
asynchronous pairing-finished notification. -/
theorem confirmPairing_failure_paths :
    (∀ (dm : DeviceManager) (tx : PairingTransactionId) (secret secret2 : String)
        (deviceClassId : DeviceClassId) (descriptorId : DeviceDescriptorId)
        (deviceClass : DeviceClass) (plugin : DevicePlugin),
      dm.pairingsJustAdd.any (fun p => p.1 == tx) = false →
      dm.pairingsDiscovery.find? (fun p => p.1 == tx)
        = some (tx, deviceClassId, descriptorId) →
      findDeviceClass dm deviceClassId = some deviceClass →
      findPlugin dm deviceClass.pluginId = some plugin →
      plugin.confirmPairingResult = .failure →
      (confirmPairing dm tx secret).error = .setupFailed ∧
        (confirmPairing dm tx secret).emitted = [] ∧
        (confirmPairing dm tx secret).dm.configuredDevices = dm.configuredDevices ∧
        (confirmPairing (confirmPairing dm tx secret).dm tx secret2).error
          = .pairingTransactionIdNotFound) ∧
    (∀ (dm : DeviceManager) (tx : PairingTransactionId) (freshId : DeviceId),
      dm.pairingsDiscovery.any (fun p => p.1 == tx) = true →
      (slotPairingFinished dm tx .failure freshId).2
          = [Emitted.pairingFinished tx .setupFailed none] ∧
        (slotPairingFinished dm tx .failure freshId).1.configuredDevices
          = dm.configuredDevices ∧
        (slotPairingFinished dm tx .failure freshId).1.pairingsDiscovery.any
          (fun p => p.1 == tx) = false) := by
  constructor
  · intro dm tx secret secret2 deviceClassId descriptorId deviceClass plugin
      hJA hD hfc hfp hfail
    refine ⟨?_, ?_, ?_, ?_⟩ <;>
      simp [confirmPairing, hJA, hD, hfc, hfp, hfail,
        find?_filter_key_eq_none, any_filter_key_eq_false, find?_const_false]
  · intro dm tx freshId hDany
    have hsome : (dm.pairingsDiscovery.find? (fun p => p.1 == tx)).isSome := by
      rw [List.find?_isSome]
      rw [List.any_eq_true] at hDany
      exact hDany
    obtain ⟨entry, hentry⟩ := Option.isSome_iff_exists.mp hsome
    cases hJAf : dm.pairingsJustAdd.find? (fun p => p.1 == tx) with
    | none =>
      refine ⟨?_, ?_, ?_⟩ <;>
        simp [slotPairingFinished, hDany, hJAf, hentry, any_filter_key_eq_false,
          find?_const_false]
    | some entryJA =>
      have hpJA := List.find?_some hJAf
      have hJAany : dm.pairingsJustAdd.any (fun p => p.1 == tx) = true := by
        rw [List.any_eq_true]
        exact ⟨entryJA, List.mem_of_find?_eq_some hJAf, hpJA⟩
      refine ⟨?_, ?_, ?_⟩ <;>
        simp [slotPairingFinished, hDany, hJAany, hJAf, hentry, any_filter_key_eq_false,
          find?_const_false]

/-- C4 witness: the amended failure path evaluated on the concrete
fixture. -/
theorem confirmPairing_failure_paths_witness :
    (confirmPairing (confirmPairing dmPairFail 5 "bad").dm 5 "again").error
      = .pairingTransactionIdNotFound :=
  (confirmPairing_failure_paths.1 dmPairFail 5 "bad" "again" 2 7 classPair pluginPairFail
    rfl rfl rfl rfl rfl).2.2.2

/-- Evaluation of `setupDevice` when class and plugin resolve and the
plugin's verdict is success. -/
theorem setupDevice_success_eval (dm : DeviceManager) (device : Device)
    (deviceClass : DeviceClass) (plugin : DevicePlugin)
    (hfc : findDeviceClass dm device.deviceClassId = some deviceClass)
    (hfp : findPlugin dm deviceClass.pluginId = some plugin)
    (hSet : plugin.setupDeviceResult = .success) :
    setupDevice dm device =
      ⟨.success, (registerTimerUser dm plugin device.id).1,
        { device with
          states := deviceClass.stateTypes.map
            (fun stateType => ⟨stateType.id, device.id, stateType.defaultValue⟩),
          setupComplete := true },
        (registerTimerUser dm plugin device.id).2⟩ := by
  unfold setupDevice
  simp only [hfc, hfp, hSet]
  simp

/-- C3 amended: a `DeviceId` is issued and reported, and the device then
proceeds through setup, exactly when the plugin's Success arrives through
the asynchronous pairing-finished notification; a Success returned
synchronously by the plugin's pairing confirmation only consumes the
transaction and returns `NoError`, with no notification, no id and no
device. -/
theorem pairingFinished_success_issues_id_and_runs_setup :
    (∀ (dm : DeviceManager) (tx : PairingTransactionId) (freshId : DeviceId)
        (deviceClassId : DeviceClassId) (descriptorId : DeviceDescriptorId)
        (deviceClass : DeviceClass) (plugin : DevicePlugin),
      dm.pairingsJustAdd.any (fun p => p.1 == tx) = false →
      dm.pairingsDiscovery.find? (fun p => p.1 == tx)
        = some (tx, deviceClassId, descriptorId) →
      findDeviceClass dm deviceClassId = some deviceClass →
      findPlugin dm deviceClass.pluginId = some plugin →
      plugin.setupDeviceResult = .success →
      (slotPairingFinished dm tx .success freshId).2.head?
          = some (Emitted.pairingFinished tx .noError (some freshId)) ∧
        (slotPairingFinished dm tx .success freshId).2.getLast?
          = some (Emitted.deviceSetupFinished freshId .noError) ∧
        ∃ device ∈ (slotPairingFinished dm tx .success freshId).1.configuredDevices,
          device.id = freshId ∧ device.deviceClassId = deviceClassId ∧
            device.setupComplete = true) ∧
    (∀ (dm : DeviceManager) (tx : PairingTransactionId) (secret : String)
        (deviceClassId : DeviceClassId) (descriptorId : DeviceDescriptorId)
        (deviceClass : DeviceClass) (plugin : DevicePlugin),
      dm.pairingsJustAdd.any (fun p => p.1 == tx) = false →
      dm.pairingsDiscovery.find? (fun p => p.1 == tx)
        = some (tx, deviceClassId, descriptorId) →
      findDeviceClass dm deviceClassId = some deviceClass →
      findPlugin dm deviceClass.pluginId = some plugin →
      plugin.confirmPairingResult = .success →
      (confirmPairing dm tx secret).error = .noError ∧
        (confirmPairing dm tx secret).emitted = [] ∧
        (confirmPairing dm tx secret).dm.configuredDevices = dm.configuredDevices ∧
        (confirmPairing (confirmPairing dm tx secret).dm tx secret).error
          = .pairingTransactionIdNotFound) := by
  constructor
  · intro dm tx freshId deviceClassId descriptorId deviceClass plugin hJA hD hfc hfp hSet
    have hpD := List.find?_some hD
    have hDany : dm.pairingsDiscovery.any (fun p => p.1 == tx) = true := by
      rw [List.any_eq_true]
      exact ⟨_, List.mem_of_find?_eq_some hD, hpD⟩
    have hJAfind : dm.pairingsJustAdd.find? (fun p => p.1 == tx) = none :=
      find?_eq_none_of_any_eq_false hJA
    simp only [slotPairingFinished, hJA, hDany, hJAfind, hD, Bool.not_false, Bool.not_true,
      Bool.false_and, Bool.and_false, if_false]
    set dm1 : DeviceManager :=
      { dm with
        pairingsDiscovery := dm.pairingsDiscovery.filter (fun p => p.1 != tx),
        discoveredDevices := dm.discoveredDevices.filter (fun d => d.id != descriptorId) }
      with hdm1
    have hfc1 : findDeviceClass dm1 deviceClassId = some deviceClass := hfc
    have hfp1 : findPlugin dm1 deviceClass.pluginId = some plugin := hfp
    simp only [hfc1, Option.map_some', Option.getD_some, hfp1]
    rw [setupDevice_success_eval dm1
      ⟨plugin.pluginId, freshId, deviceClassId, deviceClass.name,
        ((Option.map DeviceDescriptor.params
          (dm.discoveredDevices.find? (fun d => d.id == descriptorId))).getD []),
        [], false⟩
      deviceClass plugin hfc1 hfp1 hSet]
    refine ⟨?_, ?_, ?_⟩
    · simp
    · simp only [Bool.false_eq_true, if_false, ne_eq, not_true_eq_false, ite_false]
      rw [List.singleton_append, List.getLast?_concat]
    · simp only [Bool.false_eq_true, if_false, ne_eq, not_true_eq_false, ite_false]
      refine ⟨⟨plugin.pluginId, freshId, deviceClassId, deviceClass.name,
        ((Option.map DeviceDescriptor.params
          (dm.discoveredDevices.find? (fun d => d.id == descriptorId))).getD []),
        deviceClass.stateTypes.map
          (fun stateType => ⟨stateType.id, freshId, stateType.defaultValue⟩),
        true⟩, ?_, rfl, rfl, rfl⟩
      simp
  · intro dm tx secret deviceClassId descriptorId deviceClass plugin hJA hD hfc hfp hOk
    refine ⟨?_, ?_, ?_, ?_⟩ <;>
      simp [confirmPairing, hJA, hD, hfc, hfp, hOk,
        find?_filter_key_eq_none, any_filter_key_eq_false, find?_const_false]

/-- C3 witness: the amended success path evaluated on the concrete
fixture. -/
theorem pairingFinished_success_issues_id_witness :
    (slotPairingFinished dmPairOk 5 .success 42).2.head?
      = some (Emitted.pairingFinished 5 .noError (some 42)) :=
  (pairingFinished_success_issues_id_and_runs_setup.1 dmPairOk 5 42 2 7 classPair pluginPlain
    rfl rfl rfl rfl rfl).1

/-! ### C6 -/

/-- C6: the 15 s timer is created unscheduled with no users; completing the
synchronous setup of a device whose plugin requires the timer while the
timer is inactive starts it, emits the immediate kick tick and records the
device as a user; removing a configured device that was the last timer user
stops the timer; and both operations preserve the
timer-active-iff-users-nonempty invariant. -/
theorem timer_runs_iff_timer_users :
    (DeviceManager.init.pluginTimerActive = false ∧
      DeviceManager.init.pluginTimerInterval = 15000 ∧
      DeviceManager.init.pluginTimerUsers = []) ∧
    (∀ (dm : DeviceManager) (device : Device) (deviceClass : DeviceClass)
        (plugin : DevicePlugin),
      findDeviceClass dm device.deviceClassId = some deviceClass →
      findPlugin dm deviceClass.pluginId = some plugin →
      plugin.requiredHardware.timer = true →
      plugin.setupDeviceResult = .success →
      dm.pluginTimerActive = false →
      (setupDevice dm device).dm.pluginTimerActive = true ∧
        (setupDevice dm device).emitted = [Emitted.timerKick] ∧
        (setupDevice dm device).dm.pluginTimerUsers
          = dm.pluginTimerUsers ++ [device.id]) ∧
    (∀ (dm : DeviceManager) (deviceId : DeviceId) (device : Device),
      dm.configuredDevices.find? (fun d => d.id == deviceId) = some device →
      dm.pluginTimerUsers.filter (fun i => i != deviceId) = [] →
      (removeConfiguredDevice dm deviceId).dm.pluginTimerActive = false) ∧
    (∀ (dm : DeviceManager) (device : Device),
      timerInvariant dm → timerInvariant (setupDevice dm device).dm) ∧
    (∀ (dm : DeviceManager) (deviceId : DeviceId),
      timerInvariant dm → timerInvariant (removeConfiguredDevice dm deviceId).dm) := by
  refine ⟨⟨rfl, rfl, rfl⟩, ?_, ?_, ?_, ?_⟩
  · intro dm device deviceClass plugin hfc hfp hTimer hSet hActive
    rw [setupDevice_success_eval dm device deviceClass plugin hfc hfp hSet]
    simp [registerTimerUser, hTimer, hActive]
  · intro dm deviceId device hfind hlast
    simp only [removeConfiguredDevice, hfind]
    simp [hlast]
  · intro dm device hinv
    unfold setupDevice
    cases hfc : findDeviceClass dm device.deviceClassId with
    | none => simpa using hinv
    | some deviceClass =>
      simp only [hfc]
      cases hfp : findPlugin dm deviceClass.pluginId with
      | none => simpa using hinv
      | some plugin =>
        simp only [hfp]
        split
        · simpa using hinv
        · unfold registerTimerUser
          by_cases hTimer : plugin.requiredHardware.timer = true
          · by_cases hActive : dm.pluginTimerActive = true
            · simp [hTimer, hActive, timerInvariant]
            · simp [hTimer, hActive, timerInvariant]
          · simp only [Bool.not_eq_true] at hTimer
            simpa [hTimer] using hinv
  · intro dm deviceId hinv
    unfold removeConfiguredDevice
    cases hfind : dm.configuredDevices.find? (fun d => d.id == deviceId) with
    | none => simpa using hinv
    | some device =>
      simp only [hfind, timerInvariant] at hinv ⊢
      cases he : (dm.pluginTimerUsers.filter (fun i => i != deviceId)).isEmpty with
      | true =>
        have hnil : dm.pluginTimerUsers.filter (fun i => i != deviceId) = [] := by
          simpa using he
        simp [he, hnil]
      | false =>
        have hne : dm.pluginTimerUsers.filter (fun i => i != deviceId) ≠ [] := by
          intro hnil
          rw [hnil] at he
          simp at he
        have husers : dm.pluginTimerUsers ≠ [] := by
          intro hnil
          rw [hnil] at he
          simp at he
        have hact : dm.pluginTimerActive = true := hinv.mpr husers
        simp [he, hact, hne]

/-- C6 witness: the first timer device starts the timer and fires the
immediate kick on the concrete fixture. -/
theorem timer_runs_iff_timer_users_witness :
    (setupDevice dmTimerIdle deviceT3).dm.pluginTimerActive = true ∧
      (setupDevice dmTimerIdle deviceT3).emitted = [Emitted.timerKick] :=
  ⟨(timer_runs_iff_timer_users.2.1 dmTimerIdle deviceT3 classTimer pluginTimerP
      rfl rfl rfl rfl rfl).1,
    (timer_runs_iff_timer_users.2.1 dmTimerIdle deviceT3 classTimer pluginTimerP
      rfl rfl rfl rfl rfl).2.1⟩

/-! ### C8 -/

/-- Membership in the configured-device collection loop of the 433 MHz
fan-out. -/
theorem radio433ConfiguredLoop_mem (dm : DeviceManager) (plugin : DevicePlugin) :
    ∀ (l : List Device) (acc : List DevicePlugin),
      plugin ∈ radio433ConfiguredLoop dm l acc
        ↔ plugin ∈ acc
          ∨ (plugin.requiredHardware.radio433 = true
              ∧ ∃ device ∈ l, resolvedPlugin dm device = some plugin)
  | [], acc => by simp [radio433ConfiguredLoop]
  | device :: rest, acc => by
    simp only [radio433ConfiguredLoop]
    cases hres : resolvedPlugin dm device with
    | none =>
      rw [radio433ConfiguredLoop_mem dm plugin rest acc]
      simp only [List.exists_mem_cons_iff, hres]
      constructor
      · rintro (h | ⟨h433, hex⟩)
        · exact Or.inl h
        · exact Or.inr ⟨h433, Or.inr hex⟩
      · rintro (h | ⟨h433, h | hex⟩)
        · exact Or.inl h
        · exact absurd h (by simp)
        · exact Or.inr ⟨h433, hex⟩
    | some q =>
      dsimp only
      by_cases hcond : (q.requiredHardware.radio433 && !acc.contains q) = true
      · have h433q : q.requiredHardware.radio433 = true := by
          rw [Bool.and_eq_true] at hcond
          exact hcond.1
        rw [if_pos hcond, radio433ConfiguredLoop_mem dm plugin rest (acc ++ [q])]
        simp only [List.mem_append, List.mem_singleton, List.exists_mem_cons_iff, hres,
          Option.some_inj]
        constructor
        · rintro ((h | h) | ⟨h433, hex⟩)
          · exact Or.inl h
          · exact Or.inr ⟨h ▸ h433q, Or.inl h.symm⟩
          · exact Or.inr ⟨h433, Or.inr hex⟩
        · rintro (h | ⟨h433, h | hex⟩)
          · exact Or.inl (Or.inl h)
          · exact Or.inl (Or.inr h.symm)
          · exact Or.inr ⟨h433, hex⟩
      · rw [if_neg hcond, radio433ConfiguredLoop_mem dm plugin rest acc]
        have hcond2 : q.requiredHardware.radio433 = false ∨ q ∈ acc := by
          by_cases h433q : q.requiredHardware.radio433 = true
          · right
            by_cases hmem : q ∈ acc
            · exact hmem
            · exact absurd (by simp [h433q, hmem]) hcond
          · left
            simpa using h433q
        simp only [List.exists_mem_cons_iff, hres, Option.some_inj]
        constructor
        · rintro (h | ⟨h433, hex⟩)
          · exact Or.inl h
          · exact Or.inr ⟨h433, Or.inr hex⟩
        · rintro (h | ⟨h433, h | hex⟩)
          · exact Or.inl h
          · rcases hcond2 with hf | hmem
            · rw [← h] at h433
              exact absurd h433 (by simp [hf])
            · rw [← h]
              exact Or.inl hmem
          · exact Or.inr ⟨h433, hex⟩

/-- The configured-device collection loop keeps the accumulator free of
duplicates. -/
theorem radio433ConfiguredLoop_nodup (dm : DeviceManager) :
    ∀ (l : List Device) (acc : List DevicePlugin),
      acc.Nodup → (radio433ConfiguredLoop dm l acc).Nodup
  | [], acc => fun h => by simpa [radio433ConfiguredLoop] using h
  | device :: rest, acc => fun h => by
    simp only [radio433ConfiguredLoop]
    cases hres : resolvedPlugin dm device with
    | none => exact radio433ConfiguredLoop_nodup dm rest acc h
    | some q =>
      dsimp only
      by_cases hcond : (q.requiredHardware.radio433 && !acc.contains q) = true
      · rw [if_pos hcond]
        refine radio433ConfiguredLoop_nodup dm rest (acc ++ [q]) ?_
        have hq : q ∉ acc := by
          rw [Bool.and_eq_true] at hcond
          have := hcond.2
          simpa [List.contains, List.elem_eq_mem] using this
        exact h.append (List.nodup_singleton q) (List.disjoint_singleton.2 hq)
      · rw [if_neg hcond]
        exact radio433ConfiguredLoop_nodup dm rest acc h

/-- Membership in the discovering-plugin collection loop of the 433 MHz
fan-out. -/
theorem radio433DiscoveringLoop_mem (plugin : DevicePlugin) :
    ∀ (l acc : List DevicePlugin),
      plugin ∈ radio433DiscoveringLoop l acc
        ↔ plugin ∈ acc
          ∨ (plugin.requiredHardware.radio433 = true ∧ plugin ∈ l)
  | [], acc => by simp [radio433DiscoveringLoop]
  | q :: rest, acc => by
    simp only [radio433DiscoveringLoop]
    by_cases hcond : (q.requiredHardware.radio433 && !acc.contains q) = true
    · have h433q : q.requiredHardware.radio433 = true := by
        rw [Bool.and_eq_true] at hcond
        exact hcond.1
      rw [if_pos hcond, radio433DiscoveringLoop_mem plugin rest (acc ++ [q])]
      simp only [List.mem_append, List.mem_singleton, List.mem_cons, List.not_mem_nil,
        or_false]
      constructor
      · rintro ((h | h) | ⟨h433, hmem⟩)
        · exact Or.inl h
        · exact Or.inr ⟨by rw [h]; exact h433q, Or.inl h⟩
        · exact Or.inr ⟨h433, Or.inr hmem⟩
      · rintro (h | ⟨h433, h | hmem⟩)
        · exact Or.inl (Or.inl h)
        · exact Or.inl (Or.inr h)
        · exact Or.inr ⟨h433, hmem⟩
    · rw [if_neg hcond, radio433DiscoveringLoop_mem plugin rest acc]
      have hcond2 : q.requiredHardware.radio433 = false ∨ q ∈ acc := by
        by_cases h433q : q.requiredHardware.radio433 = true
        · right
          by_cases hmem : q ∈ acc
          · exact hmem
          · exact absurd (by simp [h433q, List.contains, List.elem_eq_mem, hmem]) hcond
        · left
          simpa using h433q
      simp only [List.mem_cons]
      constructor
      · rintro (h | ⟨h433, hmem⟩)
        · exact Or.inl h
        · exact Or.inr ⟨h433, Or.inr hmem⟩
      · rintro (h | ⟨h433, h | hmem⟩)
        · exact Or.inl h
        · rcases hcond2 with hf | hmem2
          · rw [h] at h433
            exact absurd h433 (by simp [hf])
          · rw [h]
            exact Or.inl hmem2
        · exact Or.inr ⟨h433, hmem⟩

/-- The discovering-plugin collection loop keeps the accumulator free of
duplicates. -/
theorem radio433DiscoveringLoop_nodup :
    ∀ (l acc : List DevicePlugin),
      acc.Nodup → (radio433DiscoveringLoop l acc).Nodup
  | [], acc => fun h => by simpa [radio433DiscoveringLoop] using h
  | q :: rest, acc => fun h => by
    simp only [radio433DiscoveringLoop]
    by_cases hcond : (q.requiredHardware.radio433 && !acc.contains q) = true
    · rw [if_pos hcond]
      refine radio433DiscoveringLoop_nodup rest (acc ++ [q]) ?_
      have hq : q ∉ acc := by
        rw [Bool.and_eq_true] at hcond
        have := hcond.2
        simpa [List.contains, List.elem_eq_mem] using this
      exact h.append (List.nodup_singleton q) (List.disjoint_singleton.2 hq)
    · rw [if_neg hcond]
      exact radio433DiscoveringLoop_nodup rest acc h

/-- C8: a raw 433 MHz frame triggers exactly one `radioData` invocation on
every plugin that requires the 433 MHz radio and either owns a configured
device resolving to it or is running an active discovery, and no invocation
on any other plugin. -/
theorem radio433_delivered_once_to_interested :
    ∀ (dm : DeviceManager) (rawData : List Int) (plugin : DevicePlugin),
      (radio433SignalReceived dm rawData).count (Emitted.radioData plugin rawData)
        = if interestedInRadio433 dm plugin = true then 1 else 0 := by
  intro dm rawData plugin
  unfold radio433SignalReceived
  have hinj : Function.Injective (fun q : DevicePlugin => Emitted.radioData q rawData) := by
    intro a b hab
    simpa using hab
  rw [List.count_map_of_injective _ _ hinj]
  have hnodup : (radio433DiscoveringLoop dm.discoveringPlugins
      (radio433ConfiguredLoop dm dm.configuredDevices [])).Nodup :=
    radio433DiscoveringLoop_nodup dm.discoveringPlugins _
      (radio433ConfiguredLoop_nodup dm dm.configuredDevices [] List.nodup_nil)
  have hmem : plugin ∈ radio433DiscoveringLoop dm.discoveringPlugins
        (radio433ConfiguredLoop dm dm.configuredDevices [])
      ↔ interestedInRadio433 dm plugin = true := by
    rw [radio433DiscoveringLoop_mem, radio433ConfiguredLoop_mem]
    unfold interestedInRadio433
    simp only [List.not_mem_nil, false_or, Bool.and_eq_true, Bool.or_eq_true,
      List.any_eq_true, beq_iff_eq, List.contains, List.elem_eq_mem, decide_eq_true_eq]
    constructor
    · rintro (⟨h433, hex⟩ | ⟨h433, hmem⟩)
      · exact ⟨h433, Or.inl hex⟩
      · exact ⟨h433, Or.inr hmem⟩
    · rintro ⟨h433, hex | hmem⟩
      · exact Or.inl ⟨h433, hex⟩
      · exact Or.inr ⟨h433, hmem⟩
  by_cases hint : interestedInRadio433 dm plugin = true
  · rw [if_pos hint]
    exact List.count_eq_one_of_mem hnodup (hmem.mpr hint)
  · rw [if_neg hint]
    exact List.count_eq_zero_of_not_mem (fun hm => hint (hmem.mp hm))
